import Mathlib

/-!
# CollabFS — verification of the session, hub and client core

Shallow embedding of the CollabFS collaborative-filesystem core:

* `CollabSession` (packages/server/src/session.ts): the per-session CRDT
  state is modelled as explicit association lists (`Y.Map` keys with the
  observable lookup semantics), the op log as a plain list, and the
  in-memory fencing-token counter as a `Nat`.  `Y.Text` values are
  modelled by the string they render to.  `Date.now()` is passed in as an
  explicit `now : Nat` parameter.
* the hub's broadcast and malformed-frame handling
  (packages/server/src/index.ts), with the observable effects (frames
  written, streams closed, registry after the call) made explicit.
* the client replica's update-listener and reconnection backoff
  (packages/mcp-client/src/client.ts).
-/

namespace CollabFS

/-! ## Association-list maps (observable behaviour of `Y.Map`) -/

/-- Lookup in an association list: first entry whose key equals `k`. -/
def mget {α : Type} (m : List (String × α)) (k : String) : Option α :=
  match m with
  | [] => none
  | (k', v) :: rest => if k' = k then some v else mget rest k

/-- Delete every entry stored under key `k` (`Y.Map.delete`). -/
def mdel {α : Type} (m : List (String × α)) (k : String) : List (String × α) :=
  match m with
  | [] => []
  | (k', v) :: rest => if k' = k then mdel rest k else (k', v) :: mdel rest k

/-- Store `v` under key `k`, replacing any previous binding (`Y.Map.set`). -/
def mset {α : Type} (m : List (String × α)) (k : String) (v : α) : List (String × α) :=
  (k, v) :: mdel m k

/-- Key membership (`Y.Map.has`). -/
def mhas {α : Type} (m : List (String × α)) (k : String) : Bool :=
  (mget m k).isSome

/-! ## Data model (packages/server/src/types.ts) -/

/-- `FileMetadata` as stored in the `fileTree` map. -/
structure FileMetadata where
  ftype : String
  lastModified : Nat
  lastModifiedBy : String
  token : Nat
  size : Nat
deriving DecidableEq

/-- An `Operation` entry of the `opLog` array.  The source field `by` is a
Lean keyword and is rendered `byUser`. -/
structure Operation where
  type : String
  path : String
  newPath : Option String
  byUser : String
  timestamp : Nat
  success : Bool
  error : Option String
  token : Nat
deriving DecidableEq

/-- The argument of `logOperation`: an `Operation` without its `token`
(`Omit<Operation, 'token'>`). -/
structure PartialOp where
  type : String
  path : String
  newPath : Option String
  byUser : String
  timestamp : Nat
  success : Bool
  error : Option String
deriving DecidableEq

/-- An `Activity` entry of the `activity` map. -/
structure Activity where
  userId : String
  currentFile : Option String
  action : String
  timestamp : Nat
deriving DecidableEq

/-- A `Partial<Activity>` update: `none` means the field is absent. -/
structure ActivityUpdate where
  currentFile : Option String
  action : Option String
deriving DecidableEq

/-- The observable state of one `CollabSession` instance: the four CRDT
containers of its doc, the participant set and the in-memory
`tokenCounter`. -/
structure SessionState where
  fileContents : List (String × String)
  fileTree : List (String × FileMetadata)
  opLog : List Operation
  activity : List (String × Activity)
  participants : List String
  tokenCounter : Nat
deriving DecidableEq

/-- A freshly constructed session with no snapshot to restore. -/
def emptySession : SessionState :=
  { fileContents := [], fileTree := [], opLog := [], activity := [],
    participants := [], tokenCounter := 0 }

/-! ## Session operations (packages/server/src/session.ts) -/

/-- `getNextToken`: `++this.tokenCounter`. -/
def getNextToken (s : SessionState) : Nat × SessionState :=
  (s.tokenCounter + 1, { s with tokenCounter := s.tokenCounter + 1 })

/-- `logOperation`: draw the next token and push the completed entry onto
the op log. -/
def logOperation (s : SessionState) (op : PartialOp) : Nat × SessionState :=
  let p := getNextToken s
  let operation : Operation :=
    { type := op.type, path := op.path, newPath := op.newPath,
      byUser := op.byUser, timestamp := op.timestamp, success := op.success,
      error := op.error, token := p.1 }
  (p.1, { p.2 with opLog := p.2.opLog ++ [operation] })

/-- `fileExists`. -/
def fileExists (s : SessionState) (path : String) : Bool :=
  mhas s.fileContents path

/-- `getFileContent`: `null` is rendered `none`. -/
def getFileContent (s : SessionState) (path : String) : Option String :=
  mget s.fileContents path

/-- The `mode` parameter of `writeFile`. -/
inductive WriteMode
  | overwrite
  | append
deriving DecidableEq

/-- `writeFile`: create the text if absent, overwrite (delete all, insert
at 0) or append (insert at end), upsert the `fileTree` metadata with
`token = tokenCounter + 1` and `size = content.length`, then log a
`create`/`write` operation. -/
def writeFile (s : SessionState) (path content userId : String)
    (mode : WriteMode) (now : Nat) : Nat × SessionState :=
  let old := mget s.fileContents path
  let isNew := old.isNone
  let newText :=
    match mode with
    | WriteMode.overwrite => content
    | WriteMode.append => old.getD "" ++ content
  let meta : FileMetadata :=
    { ftype := "file", lastModified := now, lastModifiedBy := userId,
      token := s.tokenCounter + 1, size := content.length }
  let s1 := { s with fileContents := mset s.fileContents path newText,
                     fileTree := mset s.fileTree path meta }
  logOperation s1
    { type := if isNew then "create" else "write", path := path,
      newPath := none, byUser := userId, timestamp := now, success := true,
      error := none }

/-- The record returned by `moveFile` / `deleteFile`. -/
structure StructResult where
  success : Bool
  token : Option Nat
  error : Option String
deriving DecidableEq

/-- `moveFile`: fail (and log) if the source is absent or the destination
present; otherwise set the content under `newPath`, delete `oldPath`, copy
the metadata (when present) with refreshed fields, delete the old
metadata, and log a successful move. -/
def moveFile (s : SessionState) (oldPath newPath userId : String)
    (now : Nat) : StructResult × SessionState :=
  if ¬ fileExists s oldPath then
    let e := "File " ++ oldPath ++ " does not exist"
    let p := logOperation s
      { type := "move", path := oldPath, newPath := some newPath,
        byUser := userId, timestamp := now, success := false,
        error := some e }
    ({ success := false, token := some p.1, error := some e }, p.2)
  else if fileExists s newPath then
    let e := "File " ++ newPath ++ " already exists"
    let p := logOperation s
      { type := "move", path := oldPath, newPath := some newPath,
        byUser := userId, timestamp := now, success := false,
        error := some e }
    ({ success := false, token := some p.1, error := some e }, p.2)
  else
    let content := (mget s.fileContents oldPath).getD ""
    let metadata := mget s.fileTree oldPath
    let contents1 := mdel (mset s.fileContents newPath content) oldPath
    let tree1 :=
      match metadata with
      | some m =>
          mdel (mset s.fileTree newPath
            { m with lastModified := now, lastModifiedBy := userId,
                     token := s.tokenCounter + 1 }) oldPath
      | none => mdel s.fileTree oldPath
    let s1 := { s with fileContents := contents1, fileTree := tree1 }
    let p := logOperation s1
      { type := "move", path := oldPath, newPath := some newPath,
        byUser := userId, timestamp := now, success := true, error := none }
    ({ success := true, token := some p.1, error := none }, p.2)

/-- `deleteFile`: fail (and log) if the path is absent; otherwise delete
content and metadata and log a successful delete. -/
def deleteFile (s : SessionState) (path userId : String)
    (now : Nat) : StructResult × SessionState :=
  if ¬ fileExists s path then
    let e := "File " ++ path ++ " does not exist"
    let p := logOperation s
      { type := "delete", path := path, newPath := none, byUser := userId,
        timestamp := now, success := false, error := some e }
    ({ success := false, token := some p.1, error := some e }, p.2)
  else
    let s1 := { s with fileContents := mdel s.fileContents path,
                       fileTree := mdel s.fileTree path }
    let p := logOperation s1
      { type := "delete", path := path, newPath := none, byUser := userId,
        timestamp := now, success := true, error := none }
    ({ success := true, token := some p.1, error := none }, p.2)

/-- `updateActivity`: merge the partial update over the current entry
(defaulting to `idle`) and stamp `timestamp := now`. -/
def updateActivity (s : SessionState) (userId : String)
    (upd : ActivityUpdate) (now : Nat) : SessionState :=
  let current := (mget s.activity userId).getD
    { userId := userId, currentFile := none, action := "idle",
      timestamp := now }
  let updated : Activity :=
    { userId := current.userId,
      currentFile := match upd.currentFile with
        | some f => some f
        | none => current.currentFile,
      action := upd.action.getD current.action,
      timestamp := now }
  { s with activity := mset s.activity userId updated }

/-- `addParticipant`: `Set.add` on the participant set. -/
def addParticipant (s : SessionState) (userId : String) : SessionState :=
  { s with participants :=
      if userId ∈ s.participants then s.participants
      else userId :: s.participants }

/-- `removeParticipant`: `Set.delete` on the participants and
`activity.delete(userId)`. -/
def removeParticipant (s : SessionState) (userId : String) : SessionState :=
  { s with participants := s.participants.erase userId,
           activity := mdel s.activity userId }

/-- The server-side session operations named by the spec's invariant
section, as one step type. -/
inductive ServerOp
  | write (path content userId : String) (mode : WriteMode) (now : Nat)
  | move (oldPath newPath userId : String) (now : Nat)
  | delete (path userId : String) (now : Nat)
  | log (op : PartialOp)
  | activityUpd (userId : String) (upd : ActivityUpdate) (now : Nat)
  | addPart (userId : String)
  | removePart (userId : String)

/-- Apply one server-side operation to a session state. -/
def applyOp (op : ServerOp) (s : SessionState) : SessionState :=
  match op with
  | ServerOp.write p c u m n => (writeFile s p c u m n).2
  | ServerOp.move o nw u n => (moveFile s o nw u n).2
  | ServerOp.delete p u n => (deleteFile s p u n).2
  | ServerOp.log pop => (logOperation s pop).2
  | ServerOp.activityUpd u upd n => updateActivity s u upd n
  | ServerOp.addPart u => addParticipant s u
  | ServerOp.removePart u => removeParticipant s u

/-! ## Snapshot restore (session.ts `restoreFromSnapshot` + constructor)

`saveSnapshot` persists `Y.encodeStateAsUpdate(this.doc)`: the four CRDT
containers, and nothing else.  A later instance for the same session id
starts with `tokenCounter = 0` (field initializer) and
`restoreFromSnapshot` only runs `Y.applyUpdate(this.doc, data)`, so the
doc containers come back while `tokenCounter` stays `0`. -/

/-- The document part of a session: what a snapshot carries. -/
structure DocSnapshot where
  fileContents : List (String × String)
  fileTree : List (String × FileMetadata)
  opLog : List Operation
  activity : List (String × Activity)
deriving DecidableEq

/-- `saveSnapshot`: encode the doc state. -/
def snapshotOf (s : SessionState) : DocSnapshot :=
  { fileContents := s.fileContents, fileTree := s.fileTree,
    opLog := s.opLog, activity := s.activity }

/-- A fresh `CollabSession` instance whose constructor successfully ran
`restoreFromSnapshot snap`: the doc containers are restored by
`Y.applyUpdate`, the participant set is new, and `tokenCounter` keeps its
initializer value `0`. -/
def restoredSession (snap : DocSnapshot) : SessionState :=
  { fileContents := snap.fileContents, fileTree := snap.fileTree,
    opLog := snap.opLog, activity := snap.activity,
    participants := [], tokenCounter := 0 }

/-! ## Client replica (packages/mcp-client/src/client.ts) -/

/-- `ws.readyState` values of the client's or a hub stream's socket. -/
inductive WsReady
  | connecting
  | opened
  | closing
  | closed
deriving DecidableEq

/-- The connection fields of a `CollabFSClient` that the update-listener
reads: the `connected` flag and `this.ws` (`none` when the field is
`null`, otherwise its `readyState`). -/
structure ClientConn where
  connected : Bool
  ws : Option WsReady
deriving DecidableEq

/-- The origin tag carried by a `doc.on('update')` notification.  Updates
the client applies from the hub are tagged with the client object itself
(`Y.applyUpdate(this.doc, update, this)` in `handleSyncStep2` and
`handleUpdate`); `hubConn` models that tag and `other` any other origin
(local transactions). -/
inductive UpdateOrigin
  | hubConn
  | other (tag : Nat)
deriving DecidableEq

/-- `send`: writes to the socket only when it exists and
`readyState === WebSocket.OPEN`.  Returns whether a frame was written. -/
def clientSend (c : ClientConn) : Bool :=
  match c.ws with
  | some WsReady.opened => true
  | _ => false

/-- `sendUpdate`: early-returns unless `connected` and `ws` present, then
frames the update and calls `send`. -/
def sendUpdate (c : ClientConn) : Bool :=
  if ¬ c.connected ∨ c.ws = none then false else clientSend c

/-- The `doc.on('update')` listener installed in the constructor:
`if (origin !== this && this.connected) this.sendUpdate(update)`.
Returns whether the update frame was sent to the hub. -/
def docUpdateListener (c : ClientConn) (origin : UpdateOrigin) : Bool :=
  if origin ≠ UpdateOrigin.hubConn ∧ c.connected then sendUpdate c
  else false

/-- `maxReconnectAttempts`. -/
def maxReconnectAttempts : Nat := 10

/-- `reconnectDelay` (milliseconds). -/
def reconnectDelay : Nat := 1000

/-- `attemptReconnect`, entered with the current `reconnectAttempts`
count: `none` when the cap is reached (no attempt scheduled), otherwise
`some (newCount, delayMs)` with
`delay = reconnectDelay * 2 ^ (reconnectAttempts - 1)` computed after the
increment. -/
def attemptReconnect (reconnectAttempts : Nat) : Option (Nat × Nat) :=
  if reconnectAttempts ≥ maxReconnectAttempts then none
  else
    let attempts := reconnectAttempts + 1
    some (attempts, reconnectDelay * 2 ^ (attempts - 1))

/-! ## Hub (packages/server/src/index.ts) -/

/-- One entry of the hub's `clients: Map<WebSocket, Client>`: the stream
handle is identified by `streamId` (distinct keys of the map are distinct
sockets), together with the registered user and session and the socket's
`readyState`. -/
structure HubClient where
  streamId : Nat
  userId : String
  sessionId : String
  ready : WsReady
deriving DecidableEq

/-- The observable effect of one hub broadcast: which streams were sent
the frame, which streams the hub closed, and the `clients` registry after
the call. -/
structure BroadcastEffect where
  sentTo : List Nat
  closedStreams : List Nat
  clientsAfter : List HubClient
deriving DecidableEq

/-- The `clients.forEach` loop body of `broadcastUpdate`: send iff the
entry is in the broadcast session, is not the sender, and its socket's
`readyState === WebSocket.OPEN`. -/
def broadcastUpdateLoop (clients : List HubClient) (sessionId : String)
    (senderId : Nat) : List Nat :=
  match clients with
  | [] => []
  | c :: rest =>
      if c.sessionId = sessionId ∧ c.streamId ≠ senderId ∧
          c.ready = WsReady.opened then
        c.streamId :: broadcastUpdateLoop rest sessionId senderId
      else broadcastUpdateLoop rest sessionId senderId

/-- `broadcastUpdate sessionId update excludeWs`: encodes the update frame
once and runs the forEach loop.  The body contains no `ws.close()` call
and never mutates `this.clients`. -/
def broadcastUpdate (clients : List HubClient) (sessionId : String)
    (senderId : Nat) : BroadcastEffect :=
  { sentTo := broadcastUpdateLoop clients sessionId senderId,
    closedStreams := [], clientsAfter := clients }

/-- `sendCustomMessage`: early-returns unless
`ws.readyState === WebSocket.OPEN`; returns whether the frame was
written. -/
def sendCustomMessage (ready : WsReady) : Bool :=
  ready = WsReady.opened

/-- The `clients.forEach` loop body of `broadcastCustomMessage`: for each
entry in the session other than the sender, call `sendCustomMessage`,
which writes only to open sockets. -/
def broadcastCustomLoop (clients : List HubClient) (sessionId : String)
    (senderId : Nat) : List Nat :=
  match clients with
  | [] => []
  | c :: rest =>
      if c.sessionId = sessionId ∧ c.streamId ≠ senderId then
        (if sendCustomMessage c.ready then
          c.streamId :: broadcastCustomLoop rest sessionId senderId
         else broadcastCustomLoop rest sessionId senderId)
      else broadcastCustomLoop rest sessionId senderId

/-- `broadcastCustomMessage sessionId message excludeWs`.  Like
`broadcastUpdate` it closes nothing and leaves `this.clients` alone. -/
def broadcastCustomMessage (clients : List HubClient) (sessionId : String)
    (senderId : Nat) : BroadcastEffect :=
  { sentTo := broadcastCustomLoop clients sessionId senderId,
    closedStreams := [], clientsAfter := clients }

/-- The hub's mutable state: `sessions` and `clients`. -/
structure HubState where
  sessions : List (String × SessionState)
  clients : List HubClient
deriving DecidableEq

/-- The observable effect of `handleMessage` on one inbound frame: the hub
state afterwards, the streams the hub closed, and the custom messages
written, as `(streamId, error string)` pairs. -/
structure MessageEffect where
  hubAfter : HubState
  closedStreams : List Nat
  sentMessages : List (Nat × String)
deriving DecidableEq

/-- The `catch` branch of `handleMessage`, taken when
`decoding.createDecoder`/`readVarUint` throws on an undecodable envelope:
the hub logs the error and calls `sendError(ws, 'Invalid message format')`,
which goes through `sendCustomMessage` and hence writes only if the
sender's socket is open.  No session is touched, nothing is closed, and
the `clients` map is not modified. -/
def handleMessageMalformed (hub : HubState) (senderId : Nat)
    (senderReady : WsReady) : MessageEffect :=
  { hubAfter := hub,
    closedStreams := [],
    sentMessages :=
      if sendCustomMessage senderReady then
        [(senderId, "Invalid message format")]
      else [] }

/-! ## Distinguished op-log entries

The exact entries the session operations append, named so the theorems
below can refer to them. -/

/-- The entry `logOperation` appends: the partial op completed with the
freshly drawn token. -/
def loggedEntry (s : SessionState) (op : PartialOp) : Operation :=
  { type := op.type, path := op.path, newPath := op.newPath,
    byUser := op.byUser, timestamp := op.timestamp, success := op.success,
    error := op.error, token := s.tokenCounter + 1 }

/-- The op-log entry of a failed move with a missing source. -/
def moveMissingEntry (s : SessionState) (o nw u : String) (n : Nat) :
    Operation :=
  { type := "move", path := o, newPath := some nw, byUser := u,
    timestamp := n, success := false,
    error := some ("File " ++ o ++ " does not exist"),
    token := s.tokenCounter + 1 }

/-- The op-log entry of a failed move with an existing destination. -/
def moveExistsEntry (s : SessionState) (o nw u : String) (n : Nat) :
    Operation :=
  { type := "move", path := o, newPath := some nw, byUser := u,
    timestamp := n, success := false,
    error := some ("File " ++ nw ++ " already exists"),
    token := s.tokenCounter + 1 }

/-- The op-log entry of a successful move. -/
def moveSuccessEntry (s : SessionState) (o nw u : String) (n : Nat) :
    Operation :=
  { type := "move", path := o, newPath := some nw, byUser := u,
    timestamp := n, success := true, error := none,
    token := s.tokenCounter + 1 }

/-- The op-log entry of a failed delete. -/
def deleteMissingEntry (s : SessionState) (p u : String) (n : Nat) :
    Operation :=
  { type := "delete", path := p, newPath := none, byUser := u,
    timestamp := n, success := false,
    error := some ("File " ++ p ++ " does not exist"),
    token := s.tokenCounter + 1 }

/-- The op-log entry of a successful delete. -/
def deleteSuccessEntry (s : SessionState) (p u : String) (n : Nat) :
    Operation :=
  { type := "delete", path := p, newPath := none, byUser := u,
    timestamp := n, success := true, error := none,
    token := s.tokenCounter + 1 }

/-- Invariant (I1): `fileContents` and `fileTree` hold exactly the same
keys. -/
def keysAligned (s : SessionState) : Prop :=
  ∀ p, (mget s.fileContents p).isSome = (mget s.fileTree p).isSome

/-! ## Basic lemmas about the map primitives -/

theorem mget_mdel {α : Type} (m : List (String × α)) (k q : String) :
    mget (mdel m k) q = if k = q then none else mget m q := by
  induction m with
  | nil => simp [mget, mdel]
  | cons e rest ih =>
    obtain ⟨k', v⟩ := e
    simp only [mdel]
    by_cases h1 : k' = k
    · rw [if_pos h1, ih]
      subst h1
      by_cases h2 : k' = q
      · subst h2; simp [mget]
      · simp [mget, h2]
    · rw [if_neg h1]
      by_cases h2 : k' = q
      · subst h2
        have hkq : ¬ k = k' := fun hh => h1 hh.symm
        simp [mget, hkq]
      · simp [mget, h2, ih]

theorem mget_mset {α : Type} (m : List (String × α)) (k q : String) (v : α) :
    mget (mset m k v) q = if k = q then some v else mget m q := by
  by_cases h : k = q <;> simp [mset, mget, mget_mdel, h]

theorem mhas_iff {α : Type} (m : List (String × α)) (k : String) :
    mhas m k = true ↔ ∃ v, mget m k = some v := by
  simp [mhas, Option.isSome_iff_exists]

/-! ## Lemmas about `logOperation` -/

theorem logOperation_eq (s : SessionState) (op : PartialOp) :
    logOperation s op =
      (s.tokenCounter + 1,
        { s with tokenCounter := s.tokenCounter + 1,
                 opLog := s.opLog ++ [loggedEntry s op] }) := rfl

@[simp] theorem logOperation_fileContents (s : SessionState) (op : PartialOp) :
    (logOperation s op).2.fileContents = s.fileContents := rfl

@[simp] theorem logOperation_fileTree (s : SessionState) (op : PartialOp) :
    (logOperation s op).2.fileTree = s.fileTree := rfl

@[simp] theorem logOperation_opLog (s : SessionState) (op : PartialOp) :
    (logOperation s op).2.opLog = s.opLog ++ [loggedEntry s op] := rfl

@[simp] theorem logOperation_tokenCounter (s : SessionState) (op : PartialOp) :
    (logOperation s op).2.tokenCounter = s.tokenCounter + 1 := rfl

@[simp] theorem logOperation_fst (s : SessionState) (op : PartialOp) :
    (logOperation s op).1 = s.tokenCounter + 1 := rfl

/-! ## Branch equations for the file operations -/

/-- `writeFile` unfolded to its net effect on the state. -/
theorem writeFile_eq (s : SessionState) (p c u : String) (mode : WriteMode)
    (n : Nat) :
    writeFile s p c u mode n =
      (s.tokenCounter + 1,
       { s with
          fileContents := mset s.fileContents p
            (match mode with
             | WriteMode.overwrite => c
             | WriteMode.append => (mget s.fileContents p).getD "" ++ c),
          fileTree := mset s.fileTree p
            { ftype := "file", lastModified := n, lastModifiedBy := u,
              token := s.tokenCounter + 1, size := c.length },
          opLog := s.opLog ++
            [{ type := if (mget s.fileContents p).isNone then "create"
                 else "write",
               path := p, newPath := none, byUser := u, timestamp := n,
               success := true, error := none,
               token := s.tokenCounter + 1 }],
          tokenCounter := s.tokenCounter + 1 }) := rfl

theorem moveFile_eq_missing (s : SessionState) (o nw u : String) (n : Nat)
    (h : fileExists s o = false) :
    moveFile s o nw u n =
      ({ success := false, token := some (s.tokenCounter + 1),
         error := some ("File " ++ o ++ " does not exist") },
       { s with opLog := s.opLog ++ [moveMissingEntry s o nw u n],
                tokenCounter := s.tokenCounter + 1 }) := by
  unfold moveFile
  rw [if_pos (show ¬ fileExists s o = true by simp [h])]
  rfl

theorem moveFile_eq_exists (s : SessionState) (o nw u : String) (n : Nat)
    (h1 : fileExists s o = true) (h2 : fileExists s nw = true) :
    moveFile s o nw u n =
      ({ success := false, token := some (s.tokenCounter + 1),
         error := some ("File " ++ nw ++ " already exists") },
       { s with opLog := s.opLog ++ [moveExistsEntry s o nw u n],
                tokenCounter := s.tokenCounter + 1 }) := by
  unfold moveFile
  rw [if_neg (show ¬ ¬ fileExists s o = true by simp [h1]), if_pos h2]
  rfl

theorem moveFile_eq_success (s : SessionState) (o nw u : String) (n : Nat)
    (h1 : fileExists s o = true) (h2 : fileExists s nw = false) :
    moveFile s o nw u n =
      ({ success := true, token := some (s.tokenCounter + 1),
         error := none },
       { s with
          fileContents :=
            mdel (mset s.fileContents nw
              ((mget s.fileContents o).getD "")) o,
          fileTree :=
            match mget s.fileTree o with
            | some m =>
                mdel (mset s.fileTree nw
                  { m with lastModified := n, lastModifiedBy := u,
                           token := s.tokenCounter + 1 }) o
            | none => mdel s.fileTree o,
          opLog := s.opLog ++ [moveSuccessEntry s o nw u n],
          tokenCounter := s.tokenCounter + 1 }) := by
  unfold moveFile
  rw [if_neg (show ¬ ¬ fileExists s o = true by simp [h1]),
      if_neg (show ¬ fileExists s nw = true by simp [h2])]
  rfl

theorem deleteFile_eq_missing (s : SessionState) (p u : String) (n : Nat)
    (h : fileExists s p = false) :
    deleteFile s p u n =
      ({ success := false, token := some (s.tokenCounter + 1),
         error := some ("File " ++ p ++ " does not exist") },
       { s with opLog := s.opLog ++ [deleteMissingEntry s p u n],
                tokenCounter := s.tokenCounter + 1 }) := by
  unfold deleteFile
  rw [if_pos (show ¬ fileExists s p = true by simp [h])]
  rfl

theorem deleteFile_eq_success (s : SessionState) (p u : String) (n : Nat)
    (h : fileExists s p = true) :
    deleteFile s p u n =
      ({ success := true, token := some (s.tokenCounter + 1),
         error := none },
       { s with fileContents := mdel s.fileContents p,
                fileTree := mdel s.fileTree p,
                opLog := s.opLog ++ [deleteSuccessEntry s p u n],
                tokenCounter := s.tokenCounter + 1 }) := by
  unfold deleteFile
  rw [if_neg (show ¬ ¬ fileExists s p = true by simp [h])]
  rfl

/-! ## C1: content/metadata key alignment -/

theorem keysAligned_writeFile (s : SessionState) (path content userId : String)
    (mode : WriteMode) (now : Nat) (h : keysAligned s) :
    keysAligned (writeFile s path content userId mode now).2 := by
  intro q
  rw [writeFile_eq]
  simp only
  rw [mget_mset, mget_mset]
  by_cases hq : path = q <;> simp [hq, h q]

theorem keysAligned_moveFile (s : SessionState) (oldPath newPath userId : String)
    (now : Nat) (h : keysAligned s) :
    keysAligned (moveFile s oldPath newPath userId now).2 := by
  by_cases h1 : fileExists s oldPath
  · by_cases h2 : fileExists s newPath
    · rw [moveFile_eq_exists s oldPath newPath userId now h1 h2]
      intro q; exact h q
    · have hsome : (mget s.fileContents oldPath).isSome = true := by
        simpa [fileExists, mhas] using h1
      have htree : (mget s.fileTree oldPath).isSome = true := by
        rw [← h oldPath]; exact hsome
      obtain ⟨m, hm⟩ := Option.isSome_iff_exists.mp htree
      rw [moveFile_eq_success s oldPath newPath userId now h1
        (Bool.eq_false_iff.mpr h2)]
      intro q
      simp only [hm]
      rw [mget_mdel, mget_mset, mget_mdel, mget_mset]
      by_cases ho : oldPath = q
      · simp [ho]
      · by_cases hn : newPath = q <;> simp [ho, hn, h q]
  · rw [moveFile_eq_missing s oldPath newPath userId now
      (Bool.eq_false_iff.mpr h1)]
    intro q; exact h q

theorem keysAligned_deleteFile (s : SessionState) (path userId : String)
    (now : Nat) (h : keysAligned s) :
    keysAligned (deleteFile s path userId now).2 := by
  by_cases h1 : fileExists s path
  · rw [deleteFile_eq_success s path userId now h1]
    intro q
    rw [mget_mdel, mget_mdel]
    by_cases hq : path = q <;> simp [hq, h q]
  · rw [deleteFile_eq_missing s path userId now (Bool.eq_false_iff.mpr h1)]
    intro q; exact h q

/-- C1.  Every server-side session operation — `writeFile`, `moveFile`,
`deleteFile`, `logOperation`, `updateActivity`, `addParticipant`,
`removeParticipant` — preserves invariant (I1): if `fileContents` and
`fileTree` hold the same keys before the operation, they do after it. -/
theorem serverOp_preserves_keysAligned (op : ServerOp) (s : SessionState)
    (h : keysAligned s) : keysAligned (applyOp op s) := by
  cases op with
  | write p c u m n => exact keysAligned_writeFile s p c u m n h
  | move o nw u n => exact keysAligned_moveFile s o nw u n h
  | delete p u n => exact keysAligned_deleteFile s p u n h
  | log pop => intro q; simpa using h q
  | activityUpd u upd n => intro q; exact h q
  | addPart u => intro q; exact h q
  | removePart u => intro q; exact h q

/-- Witness for C1: the invariant holds for the empty session and is
preserved by a concrete `writeFile`. -/
theorem serverOp_preserves_keysAligned_witness :
    keysAligned (applyOp (ServerOp.write "/a.txt" "hello" "A"
      WriteMode.overwrite 0) emptySession) :=
  serverOp_preserves_keysAligned _ emptySession (fun _ => rfl)

/-! ## C2: successful move semantics -/

/-- C2.  In any session state where `oldPath` is present (in both
containers, per invariant I1) and `newPath` is absent, a `moveFile`
succeeds, `oldPath` is afterwards absent from both `fileContents` and
`fileTree`, `newPath` is present in both, and the content stored under
`newPath` is exactly the content stored under `oldPath` before the
move. -/
theorem moveFile_success_semantics (s : SessionState) (o nw u : String)
    (n : Nat) (hc : mhas s.fileContents o = true)
    (ht : mhas s.fileTree o = true)
    (hn : mhas s.fileContents nw = false) :
    (moveFile s o nw u n).1.success = true ∧
    mhas (moveFile s o nw u n).2.fileContents o = false ∧
    mhas (moveFile s o nw u n).2.fileTree o = false ∧
    mhas (moveFile s o nw u n).2.fileContents nw = true ∧
    mhas (moveFile s o nw u n).2.fileTree nw = true ∧
    mget (moveFile s o nw u n).2.fileContents nw = mget s.fileContents o := by
  have honw : o ≠ nw := by
    intro he; rw [he, hn] at hc; exact Bool.false_ne_true hc
  obtain ⟨cv, hcv⟩ := (mhas_iff s.fileContents o).mp hc
  obtain ⟨m, hm⟩ := (mhas_iff s.fileTree o).mp ht
  rw [moveFile_eq_success s o nw u n hc hn]
  refine ⟨rfl, ?_, ?_, ?_, ?_, ?_⟩
  · simp [mhas, mget_mdel]
  · simp [mhas, hm, mget_mdel]
  · simp [mhas, mget_mdel, mget_mset, honw]
  · simp [mhas, hm, mget_mdel, mget_mset, honw]
  · rw [mget_mdel, if_neg honw, mget_mset, if_pos rfl, hcv]
    rfl

/-- Witness for C2: moving the single file of a one-file session. -/
theorem moveFile_success_semantics_witness :
    (moveFile (writeFile emptySession "/a.txt" "hi" "A"
        WriteMode.overwrite 0).2 "/a.txt" "/b.txt" "A" 1).1.success = true ∧
    mhas (moveFile (writeFile emptySession "/a.txt" "hi" "A"
        WriteMode.overwrite 0).2 "/a.txt" "/b.txt" "A" 1).2.fileContents
      "/a.txt" = false ∧
    mhas (moveFile (writeFile emptySession "/a.txt" "hi" "A"
        WriteMode.overwrite 0).2 "/a.txt" "/b.txt" "A" 1).2.fileTree
      "/a.txt" = false ∧
    mhas (moveFile (writeFile emptySession "/a.txt" "hi" "A"
        WriteMode.overwrite 0).2 "/a.txt" "/b.txt" "A" 1).2.fileContents
      "/b.txt" = true ∧
    mhas (moveFile (writeFile emptySession "/a.txt" "hi" "A"
        WriteMode.overwrite 0).2 "/a.txt" "/b.txt" "A" 1).2.fileTree
      "/b.txt" = true ∧
    mget (moveFile (writeFile emptySession "/a.txt" "hi" "A"
        WriteMode.overwrite 0).2 "/a.txt" "/b.txt" "A" 1).2.fileContents
      "/b.txt" =
      mget (writeFile emptySession "/a.txt" "hi" "A"
        WriteMode.overwrite 0).2.fileContents "/a.txt" :=
  moveFile_success_semantics
    (writeFile emptySession "/a.txt" "hi" "A" WriteMode.overwrite 0).2
    "/a.txt" "/b.txt" "A" 1 (by decide) (by decide) (by decide)

/-! ## C10: move with identical source and destination -/

/-- C10.  Moving a present path onto itself hits the
destination-already-exists branch: the call fails with the
`already exists` error, `fileContents` and `fileTree` are unchanged, and
exactly one op-log entry is appended, with `success = false`. -/
theorem moveFile_samePath (s : SessionState) (p u : String) (n : Nat)
    (h : mhas s.fileContents p = true) :
    (moveFile s p p u n).1.success = false ∧
    (moveFile s p p u n).1.error =
      some ("File " ++ p ++ " already exists") ∧
    (moveFile s p p u n).2.fileContents = s.fileContents ∧
    (moveFile s p p u n).2.fileTree = s.fileTree ∧
    (moveFile s p p u n).2.opLog = s.opLog ++ [moveExistsEntry s p p u n] ∧
    (moveExistsEntry s p p u n).success = false := by
  rw [moveFile_eq_exists s p p u n h h]
  exact ⟨rfl, rfl, rfl, rfl, rfl, rfl⟩

/-- Witness for C10: self-move of the single file of a one-file
session. -/
theorem moveFile_samePath_witness :
    (moveFile (writeFile emptySession "/a.txt" "hi" "A"
        WriteMode.overwrite 0).2 "/a.txt" "/a.txt" "A" 1).1.success =
      false ∧
    (moveFile (writeFile emptySession "/a.txt" "hi" "A"
        WriteMode.overwrite 0).2 "/a.txt" "/a.txt" "A" 1).1.error =
      some ("File " ++ "/a.txt" ++ " already exists") ∧
    (moveFile (writeFile emptySession "/a.txt" "hi" "A"
        WriteMode.overwrite 0).2 "/a.txt" "/a.txt" "A" 1).2.fileContents =
      (writeFile emptySession "/a.txt" "hi" "A"
        WriteMode.overwrite 0).2.fileContents ∧
    (moveFile (writeFile emptySession "/a.txt" "hi" "A"
        WriteMode.overwrite 0).2 "/a.txt" "/a.txt" "A" 1).2.fileTree =
      (writeFile emptySession "/a.txt" "hi" "A"
        WriteMode.overwrite 0).2.fileTree ∧
    (moveFile (writeFile emptySession "/a.txt" "hi" "A"
        WriteMode.overwrite 0).2 "/a.txt" "/a.txt" "A" 1).2.opLog =
      (writeFile emptySession "/a.txt" "hi" "A"
        WriteMode.overwrite 0).2.opLog ++
        [moveExistsEntry (writeFile emptySession "/a.txt" "hi" "A"
          WriteMode.overwrite 0).2 "/a.txt" "/a.txt" "A" 1] ∧
    (moveExistsEntry (writeFile emptySession "/a.txt" "hi" "A"
        WriteMode.overwrite 0).2 "/a.txt" "/a.txt" "A" 1).success = false :=
  moveFile_samePath
    (writeFile emptySession "/a.txt" "hi" "A" WriteMode.overwrite 0).2
    "/a.txt" "A" 1 (by decide)

/-! ## C4: overwrite-write semantics -/

/-- C4.  After `writeFile path content by overwrite`, reading `path` gives
back exactly `content`; the `fileTree` entry at `path` records
`size = content.length` and `lastModifiedBy = by` (with the session's
next token and the call's timestamp); and exactly one op-log entry is
appended, of type `create` when the path was absent before the call and
`write` otherwise, with `success = true`. -/
theorem writeFile_overwrite_semantics (s : SessionState)
    (p c u : String) (n : Nat) :
    getFileContent (writeFile s p c u WriteMode.overwrite n).2 p =
      some c ∧
    mget (writeFile s p c u WriteMode.overwrite n).2.fileTree p =
      some { ftype := "file", lastModified := n, lastModifiedBy := u,
             token := s.tokenCounter + 1, size := c.length } ∧
    (writeFile s p c u WriteMode.overwrite n).2.opLog =
      s.opLog ++
        [{ type := if mhas s.fileContents p then "write" else "create",
           path := p, newPath := none, byUser := u, timestamp := n,
           success := true, error := none,
           token := s.tokenCounter + 1 }] := by
  rw [writeFile_eq]
  refine ⟨?_, ?_, ?_⟩
  · simp [getFileContent, mget_mset]
  · simp [mget_mset]
  · cases hm : mget s.fileContents p <;> simp [mhas, hm]

/-! ## C3: failure semantics of the structural operations

The two error strings of `moveFile` end in different characters, so the
kind of failure can be read off the returned error. -/

theorem last_append_ne {α : Type} {c d : α} (h : c ≠ d) (xs ys : List α) :
    xs ++ [c] ≠ ys ++ [d] := by
  intro he
  have h2 := congrArg List.getLast? he
  rw [List.getLast?_concat, List.getLast?_concat] at h2
  exact h (Option.some.inj h2)

theorem errStrings_ne (a b : String) :
    ("File " ++ a ++ " already exists" : String) ≠
      "File " ++ b ++ " does not exist" := by
  intro h
  have hd := congrArg String.data h
  rw [String.data_append, String.data_append, String.data_append,
    String.data_append] at hd
  have e1 : (" already exists" : String).data
      = [' ', 'a', 'l', 'r', 'e', 'a', 'd', 'y', ' ', 'e', 'x', 'i', 's',
          't'] ++ ['s'] := rfl
  have e2 : (" does not exist" : String).data
      = [' ', 'd', 'o', 'e', 's', ' ', 'n', 'o', 't', ' ', 'e', 'x', 'i',
          's'] ++ ['t'] := rfl
  rw [e1, e2, ← List.append_assoc, ← List.append_assoc] at hd
  exact last_append_ne (by decide) _ _ hd

/-- C3.  `moveFile` fails with the missing-source error exactly when the
source is absent, fails with the destination-exists error exactly when
both source and destination are present, `deleteFile` fails with the
missing-file error exactly when the path is absent, and in every failure
case the content and metadata maps are unchanged while the error is both
returned to the caller (with token `tokenCounter + 1`) and appended to the
op log as a single `success = false` entry carrying that same fresh
token. -/
theorem structural_error_semantics (s : SessionState) (o nw p u : String)
    (n : Nat) :
    (((moveFile s o nw u n).1.success = false ∧
      (moveFile s o nw u n).1.error =
        some ("File " ++ o ++ " does not exist")) ↔
      mhas s.fileContents o = false) ∧
    (((moveFile s o nw u n).1.success = false ∧
      (moveFile s o nw u n).1.error =
        some ("File " ++ nw ++ " already exists")) ↔
      (mhas s.fileContents o = true ∧ mhas s.fileContents nw = true)) ∧
    (((deleteFile s p u n).1.success = false ∧
      (deleteFile s p u n).1.error =
        some ("File " ++ p ++ " does not exist")) ↔
      mhas s.fileContents p = false) ∧
    ((moveFile s o nw u n).1.success = false →
      (moveFile s o nw u n).2.fileContents = s.fileContents ∧
      (moveFile s o nw u n).2.fileTree = s.fileTree ∧
      (moveFile s o nw u n).1.token = some (s.tokenCounter + 1) ∧
      (moveFile s o nw u n).2.tokenCounter = s.tokenCounter + 1 ∧
      ∃ e, (moveFile s o nw u n).2.opLog = s.opLog ++ [e] ∧
        e.success = false ∧ e.error = (moveFile s o nw u n).1.error ∧
        e.token = s.tokenCounter + 1) ∧
    ((deleteFile s p u n).1.success = false →
      (deleteFile s p u n).2.fileContents = s.fileContents ∧
      (deleteFile s p u n).2.fileTree = s.fileTree ∧
      (deleteFile s p u n).1.token = some (s.tokenCounter + 1) ∧
      (deleteFile s p u n).2.tokenCounter = s.tokenCounter + 1 ∧
      ∃ e, (deleteFile s p u n).2.opLog = s.opLog ++ [e] ∧
        e.success = false ∧ e.error = (deleteFile s p u n).1.error ∧
        e.token = s.tokenCounter + 1) := by
  refine ⟨?_, ?_, ?_, ?_, ?_⟩
  · by_cases h1 : fileExists s o
    · have h1' : mhas s.fileContents o = true := h1
      constructor
      · rintro ⟨hs, he⟩
        by_cases h2 : fileExists s nw
        · rw [moveFile_eq_exists s o nw u n h1 h2] at he
          exact absurd (Option.some.inj he) (errStrings_ne nw o)
        · rw [moveFile_eq_success s o nw u n h1
            (Bool.eq_false_iff.mpr h2)] at hs
          exact absurd hs (by simp)
      · intro hr
        exact absurd (h1'.symm.trans hr) (by decide)
    · have h1' : fileExists s o = false := Bool.eq_false_iff.mpr h1
      have h1'' : mhas s.fileContents o = false := h1'
      rw [moveFile_eq_missing s o nw u n h1']
      simp [h1'']
  · by_cases h1 : fileExists s o
    · have h1' : mhas s.fileContents o = true := h1
      by_cases h2 : fileExists s nw
      · have h2' : mhas s.fileContents nw = true := h2
        rw [moveFile_eq_exists s o nw u n h1 h2]
        simp [h1', h2']
      · have h2' : mhas s.fileContents nw = false := Bool.eq_false_iff.mpr h2
        rw [moveFile_eq_success s o nw u n h1 (Bool.eq_false_iff.mpr h2)]
        simp [h2']
    · have h1' : mhas s.fileContents o = false := Bool.eq_false_iff.mpr h1
      rw [moveFile_eq_missing s o nw u n (Bool.eq_false_iff.mpr h1)]
      simp only [h1']
      constructor
      · rintro ⟨-, he⟩
        exact absurd (Option.some.inj he).symm (errStrings_ne nw o)
      · rintro ⟨hh, -⟩
        exact absurd hh (by simp)
  · by_cases h3 : fileExists s p
    · have h3' : mhas s.fileContents p = true := h3
      rw [deleteFile_eq_success s p u n h3]
      simp [h3']
    · have h3' : mhas s.fileContents p = false := Bool.eq_false_iff.mpr h3
      rw [deleteFile_eq_missing s p u n (Bool.eq_false_iff.mpr h3)]
      simp [h3']
  · by_cases h1 : fileExists s o
    · by_cases h2 : fileExists s nw
      · rw [moveFile_eq_exists s o nw u n h1 h2]
        intro _
        exact ⟨rfl, rfl, rfl, rfl, moveExistsEntry s o nw u n,
          rfl, rfl, rfl, rfl⟩
      · rw [moveFile_eq_success s o nw u n h1 (Bool.eq_false_iff.mpr h2)]
        intro hs
        exact absurd hs (by simp)
    · rw [moveFile_eq_missing s o nw u n (Bool.eq_false_iff.mpr h1)]
      intro _
      exact ⟨rfl, rfl, rfl, rfl, moveMissingEntry s o nw u n,
        rfl, rfl, rfl, rfl⟩
  · by_cases h3 : fileExists s p
    · rw [deleteFile_eq_success s p u n h3]
      intro hs
      exact absurd hs (by simp)
    · rw [deleteFile_eq_missing s p u n (Bool.eq_false_iff.mpr h3)]
      intro _
      exact ⟨rfl, rfl, rfl, rfl, deleteMissingEntry s p u n,
        rfl, rfl, rfl, rfl⟩

/-- Witness for C3: on the empty session, moving an absent file fails
with the missing-source error. -/
theorem structural_error_semantics_witness :
    (moveFile emptySession "/a" "/b" "u" 0).1.success = false ∧
    (moveFile emptySession "/a" "/b" "u" 0).1.error =
      some ("File " ++ "/a" ++ " does not exist") :=
  (structural_error_semantics emptySession "/a" "/b" "/c" "u" 0).1.mpr
    (by decide)

/-! ## C5: fencing-token freshness -/

theorem fresh_append (L : List Operation) (ctr : Nat) (e : Operation)
    (h : ∀ x ∈ L, x.token ≤ ctr) (he : e.token = ctr + 1) :
    (∀ x ∈ L ++ [e], x.token ≤ ctr + 1) ∧
    (L ++ [e]).take L.length = L ∧
    (∀ x ∈ (L ++ [e]).drop L.length, ∀ y ∈ L, y.token < x.token) := by
  refine ⟨?_, List.take_left L [e], ?_⟩
  · intro x hx
    rcases List.mem_append.mp hx with hx | hx
    · exact Nat.le_succ_of_le (h x hx)
    · rw [List.mem_singleton] at hx
      subst hx
      rw [he]
  · simp only [List.drop_left]
    intro x hx y hy
    rw [List.mem_singleton] at hx
    subst hx
    rw [he]
    exact Nat.lt_succ_of_le (h y hy)

/-- C5 (amended).  Within one session instance, every op-log entry a
server operation appends carries token `tokenCounter + 1`, strictly
greater than the token of every entry already in the log (whenever all
existing tokens are bounded by the counter, as they are along any run of
one instance from `emptySession`); the log grows by appending only.  The
original claim additionally asserted uniqueness across a
restore-from-snapshot, which fails (see the counterexample): the restored
instance's counter restarts at zero. -/
theorem opLog_tokens_fresh (op : ServerOp) (s : SessionState)
    (h : ∀ e ∈ s.opLog, e.token ≤ s.tokenCounter) :
    (∀ e ∈ (applyOp op s).opLog, e.token ≤ (applyOp op s).tokenCounter) ∧
    (applyOp op s).opLog.take s.opLog.length = s.opLog ∧
    (∀ e ∈ (applyOp op s).opLog.drop s.opLog.length,
      ∀ e' ∈ s.opLog, e'.token < e.token) := by
  cases op with
  | write p c u m n =>
      simp only [applyOp]
      rw [writeFile_eq]
      exact fresh_append s.opLog s.tokenCounter _ h rfl
  | move o nw u n =>
      simp only [applyOp]
      by_cases h1 : fileExists s o
      · by_cases h2 : fileExists s nw
        · rw [moveFile_eq_exists s o nw u n h1 h2]
          exact fresh_append s.opLog s.tokenCounter _ h rfl
        · rw [moveFile_eq_success s o nw u n h1 (Bool.eq_false_iff.mpr h2)]
          exact fresh_append s.opLog s.tokenCounter _ h rfl
      · rw [moveFile_eq_missing s o nw u n (Bool.eq_false_iff.mpr h1)]
        exact fresh_append s.opLog s.tokenCounter _ h rfl
  | delete p u n =>
      simp only [applyOp]
      by_cases h1 : fileExists s p
      · rw [deleteFile_eq_success s p u n h1]
        exact fresh_append s.opLog s.tokenCounter _ h rfl
      · rw [deleteFile_eq_missing s p u n (Bool.eq_false_iff.mpr h1)]
        exact fresh_append s.opLog s.tokenCounter _ h rfl
  | log pop =>
      simp only [applyOp]
      rw [logOperation_eq]
      exact fresh_append s.opLog s.tokenCounter _ h rfl
  | activityUpd u upd n =>
      refine ⟨fun e he => h e he, ?_, ?_⟩
      · show s.opLog.take s.opLog.length = s.opLog
        simp
      · show ∀ e ∈ s.opLog.drop s.opLog.length, ∀ e' ∈ s.opLog, e'.token < e.token
        simp
  | addPart u =>
      refine ⟨fun e he => h e he, ?_, ?_⟩
      · show s.opLog.take s.opLog.length = s.opLog
        simp
      · show ∀ e ∈ s.opLog.drop s.opLog.length, ∀ e' ∈ s.opLog, e'.token < e.token
        simp
  | removePart u =>
      refine ⟨fun e he => h e he, ?_, ?_⟩
      · show s.opLog.take s.opLog.length = s.opLog
        simp
      · show ∀ e ∈ s.opLog.drop s.opLog.length, ∀ e' ∈ s.opLog, e'.token < e.token
        simp

/-- Witness for C5 (amended): a first write on a fresh session appends a
token strictly above the (empty) log. -/
theorem opLog_tokens_fresh_witness :
    (∀ e ∈ (applyOp (ServerOp.write "/a" "x" "u" WriteMode.overwrite 0)
        emptySession).opLog,
      e.token ≤ (applyOp (ServerOp.write "/a" "x" "u" WriteMode.overwrite 0)
        emptySession).tokenCounter) ∧
    (applyOp (ServerOp.write "/a" "x" "u" WriteMode.overwrite 0)
        emptySession).opLog.take emptySession.opLog.length =
      emptySession.opLog ∧
    (∀ e ∈ (applyOp (ServerOp.write "/a" "x" "u" WriteMode.overwrite 0)
        emptySession).opLog.drop emptySession.opLog.length,
      ∀ e' ∈ emptySession.opLog, e'.token < e.token) :=
  opLog_tokens_fresh (ServerOp.write "/a" "x" "u" WriteMode.overwrite 0)
    emptySession (by simp [emptySession])

/-- Counterexample to C5 as stated: write on a fresh instance (token 1),
snapshot, restore into a new instance — whose `tokenCounter` restarts at
`0` — and write again: the new entry also gets token 1, so tokens are not
unique across a restore-from-snapshot, and the restored-instance append
is not strictly greater than every earlier entry. -/
theorem restore_resets_token_uniqueness :
    ((writeFile (restoredSession (snapshotOf
        (writeFile emptySession "/a" "x" "u" WriteMode.overwrite 0).2))
        "/a" "y" "u" WriteMode.overwrite 1).2.opLog.map Operation.token =
      [1, 1]) ∧
    ¬ List.Nodup
      ((writeFile (restoredSession (snapshotOf
          (writeFile emptySession "/a" "x" "u" WriteMode.overwrite 0).2))
          "/a" "y" "u" WriteMode.overwrite 1).2.opLog.map
        Operation.token) := by
  exact ⟨rfl, by decide⟩

/-! ## C6: update-origin discipline of the client listener -/

/-- C6.  For every client connection state reachable in the client's
lifecycle (the `connected` flag is raised only in the socket's `open`
handler and lowered on close/disconnect, so `connected` implies an open
socket), the document change-listener sends an update frame to the hub
iff the update's origin is not the hub connection itself and the client
is currently connected: hub-tagged updates are never re-sent, and every
otherwise-originated update produced while connected is sent. -/
theorem docUpdateListener_sends_iff (c : ClientConn) (origin : UpdateOrigin)
    (h : c.connected = true → c.ws = some WsReady.opened) :
    docUpdateListener c origin = true ↔
      (origin ≠ UpdateOrigin.hubConn ∧ c.connected = true) := by
  unfold docUpdateListener sendUpdate clientSend
  by_cases ho : origin = UpdateOrigin.hubConn
  · simp [ho]
  · by_cases hc : c.connected = true
    · have hw := h hc
      simp [ho, hc, hw]
    · have hc' : c.connected = false := Bool.eq_false_iff.mpr hc
      simp [ho, hc']

/-- Witness for C6: a connected client with an open socket sends a
locally originated update. -/
theorem docUpdateListener_sends_iff_witness :
    docUpdateListener { connected := true, ws := some WsReady.opened }
        (UpdateOrigin.other 0) = true ↔
      (UpdateOrigin.other 0 ≠ UpdateOrigin.hubConn ∧
        ({ connected := true, ws := some WsReady.opened } :
          ClientConn).connected = true) :=
  docUpdateListener_sends_iff
    { connected := true, ws := some WsReady.opened }
    (UpdateOrigin.other 0) (fun _ => rfl)

/-! ## C9: reconnection backoff -/

/-- C9.  On an unexpected close the client schedules at most 10
reconnection attempts: entering `attemptReconnect` before the n-th
attempt (with `reconnectAttempts = n - 1`, `1 ≤ n ≤ 10`) schedules it
after exactly `1000 * 2 ^ (n - 1)` milliseconds, and `attemptReconnect`
schedules nothing iff at least 10 attempts have already been made. -/
theorem attemptReconnect_backoff (n : Nat) (h1 : 1 ≤ n) (h2 : n ≤ 10) :
    attemptReconnect (n - 1) = some (n, 1000 * 2 ^ (n - 1)) ∧
    ∀ a, attemptReconnect a = none ↔ 10 ≤ a := by
  constructor
  · unfold attemptReconnect maxReconnectAttempts reconnectDelay
    rw [if_neg (by omega)]
    rw [Nat.sub_add_cancel h1]
  · intro a
    unfold attemptReconnect maxReconnectAttempts
    constructor
    · intro ha
      by_contra hlt
      rw [if_neg (by omega)] at ha
      exact Option.some_ne_none _ ha
    · intro ha
      rw [if_pos ha]

/-- Witness for C9: the third attempt is scheduled 4000 ms after the
third unexpected close. -/
theorem attemptReconnect_backoff_witness :
    attemptReconnect (3 - 1) = some (3, 1000 * 2 ^ (3 - 1)) ∧
    ∀ a, attemptReconnect a = none ↔ 10 ≤ a :=
  attemptReconnect_backoff 3 (by decide) (by decide)

/-! ## C7: hub broadcast fan-out -/

theorem broadcastUpdateLoop_mem (clients : List HubClient) (sid : String)
    (sender : Nat) (t : Nat) :
    t ∈ broadcastUpdateLoop clients sid sender ↔
      ∃ c ∈ clients, c.streamId = t ∧ c.sessionId = sid ∧
        c.streamId ≠ sender ∧ c.ready = WsReady.opened := by
  induction clients with
  | nil => simp [broadcastUpdateLoop]
  | cons c rest ih =>
    simp only [broadcastUpdateLoop]
    by_cases hc : c.sessionId = sid ∧ c.streamId ≠ sender ∧
        c.ready = WsReady.opened
    · rw [if_pos hc]
      simp only [List.mem_cons, ih]
      constructor
      · rintro (rfl | ⟨d, hd, hdt, hds, hdn, hdr⟩)
        · exact ⟨c, Or.inl rfl, rfl, hc.1, hc.2.1, hc.2.2⟩
        · exact ⟨d, Or.inr hd, hdt, hds, hdn, hdr⟩
      · rintro ⟨d, rfl | hd2, hdt, hds, hdn, hdr⟩
        · exact Or.inl hdt.symm
        · exact Or.inr ⟨d, hd2, hdt, hds, hdn, hdr⟩
    · rw [if_neg hc, ih]
      constructor
      · rintro ⟨d, hd, hdt, hds, hdn, hdr⟩
        exact ⟨d, List.mem_cons_of_mem c hd, hdt, hds, hdn, hdr⟩
      · rintro ⟨d, hd, hdt, hds, hdn, hdr⟩
        rcases List.mem_cons.mp hd with rfl | hd2
        · exact absurd ⟨hds, hdn, hdr⟩ hc
        · exact ⟨d, hd2, hdt, hds, hdn, hdr⟩

theorem broadcastCustomLoop_eq_updateLoop (clients : List HubClient)
    (sid : String) (sender : Nat) :
    broadcastCustomLoop clients sid sender =
      broadcastUpdateLoop clients sid sender := by
  induction clients with
  | nil => rfl
  | cons c rest ih =>
    simp only [broadcastCustomLoop, broadcastUpdateLoop]
    by_cases hc1 : c.sessionId = sid ∧ c.streamId ≠ sender
    · by_cases hc3 : c.ready = WsReady.opened
      · rw [if_pos hc1, if_pos (show sendCustomMessage c.ready = true by
          simp [sendCustomMessage, hc3]),
          if_pos ⟨hc1.1, hc1.2, hc3⟩, ih]
      · rw [if_pos hc1, if_neg (show ¬ sendCustomMessage c.ready = true by
          simp [sendCustomMessage, hc3]),
          if_neg (fun hh => hc3 hh.2.2), ih]
    · rw [if_neg hc1, if_neg (fun hh => hc1 ⟨hh.1, hh.2.1⟩), ih]

/-- C7 (amended).  A frame broadcast from sender `S` in session `X` — by
`broadcastUpdate` or `broadcastCustomMessage` — is sent to exactly the
streams `T ≠ S` registered in the clients map with session id `X` whose
socket is open (writable); but non-writable streams encountered during
the broadcast are merely skipped: the hub closes none of them and the
clients map is left unchanged. -/
theorem broadcast_fanout_semantics (clients : List HubClient)
    (sid : String) (sender : Nat) :
    (∀ t, t ∈ (broadcastUpdate clients sid sender).sentTo ↔
      ∃ c ∈ clients, c.streamId = t ∧ c.sessionId = sid ∧
        c.streamId ≠ sender ∧ c.ready = WsReady.opened) ∧
    (broadcastUpdate clients sid sender).closedStreams = [] ∧
    (broadcastUpdate clients sid sender).clientsAfter = clients ∧
    (∀ t, t ∈ (broadcastCustomMessage clients sid sender).sentTo ↔
      ∃ c ∈ clients, c.streamId = t ∧ c.sessionId = sid ∧
        c.streamId ≠ sender ∧ c.ready = WsReady.opened) ∧
    (broadcastCustomMessage clients sid sender).closedStreams = [] ∧
    (broadcastCustomMessage clients sid sender).clientsAfter = clients := by
  refine ⟨fun t => broadcastUpdateLoop_mem clients sid sender t, rfl, rfl,
    fun t => ?_, rfl, rfl⟩
  show t ∈ broadcastCustomLoop clients sid sender ↔ _
  rw [broadcastCustomLoop_eq_updateLoop]
  exact broadcastUpdateLoop_mem clients sid sender t

/-- Counterexample to C7 as stated: broadcasting in session `X` from
stream 1 while stream 2 of the same session is closed (non-writable)
closes nothing and leaves the closed stream registered — the claim's
"closed and removed from the clients map" does not happen. -/
theorem broadcast_keeps_dead_streams :
    (broadcastUpdate
        [{ streamId := 1, userId := "a", sessionId := "X",
           ready := WsReady.opened },
         { streamId := 2, userId := "b", sessionId := "X",
           ready := WsReady.closed }] "X" 1).closedStreams = [] ∧
    ({ streamId := 2, userId := "b", sessionId := "X",
       ready := WsReady.closed } : HubClient) ∈
      (broadcastUpdate
        [{ streamId := 1, userId := "a", sessionId := "X",
           ready := WsReady.opened },
         { streamId := 2, userId := "b", sessionId := "X",
           ready := WsReady.closed }] "X" 1).clientsAfter := by
  exact ⟨rfl, by decide⟩

/-! ## C8: malformed frames -/

/-- C8 (amended).  When the hub receives a frame whose envelope cannot be
decoded it sends an `error` control message back to the sender (when that
socket is open) and nothing else happens: the sender's stream is NOT
closed, no stream is closed or dropped from the clients map, and every
session document and registered client is exactly as before. -/
theorem handleMalformed_semantics (hub : HubState) (senderId : Nat)
    (senderReady : WsReady) :
    (handleMessageMalformed hub senderId senderReady).hubAfter = hub ∧
    (handleMessageMalformed hub senderId senderReady).closedStreams = [] ∧
    (handleMessageMalformed hub senderId senderReady).sentMessages =
      (if senderReady = WsReady.opened then
        [(senderId, "Invalid message format")]
       else []) := by
  refine ⟨rfl, rfl, ?_⟩
  unfold handleMessageMalformed sendCustomMessage
  by_cases h : senderReady = WsReady.opened <;> simp [h]

/-- Counterexample to C8 as stated: with a decodable-envelope failure
from open stream 1 (session `X` live, peer stream 2 registered), the
sender's stream is not closed — the hub closes nothing at all. -/
theorem malformed_does_not_close_sender :
    ¬ ((1 : Nat) ∈
      (handleMessageMalformed
        { sessions := [("X", emptySession)],
          clients :=
            [{ streamId := 1, userId := "a", sessionId := "X",
               ready := WsReady.opened },
             { streamId := 2, userId := "b", sessionId := "X",
               ready := WsReady.opened }] }
        1 WsReady.opened).closedStreams) ∧
    (handleMessageMalformed
        { sessions := [("X", emptySession)],
          clients :=
            [{ streamId := 1, userId := "a", sessionId := "X",
               ready := WsReady.opened },
             { streamId := 2, userId := "b", sessionId := "X",
               ready := WsReady.opened }] }
        1 WsReady.opened).closedStreams = [] := by
  exact ⟨by decide, rfl⟩

end CollabFS
